import Mathlib

/-!
Shallow embedding of the web-content-extractor core pipeline
(`src/core/service.py`, `src/core/models.py`, `src/core/value_objects.py`,
`src/infrastructure/http_client.py`, `src/infrastructure/context_classifier.py`,
`src/infrastructure/link_classifier.py`, `src/infrastructure/html_parser.py`)
together with theorems settling the frozen claims about it.

External collaborators (the HTTP backend, `urllib`'s `urljoin`/`urlparse`,
pydantic's `HttpUrl` validator) are modelled as function parameters, exactly
at the interface boundary the source uses them.
-/

/-! ## String helpers (Python `in`, `str.lower`, regular-expression shapes) -/

/-- `listContainsSub s pat` decides whether `pat` occurs as a contiguous
substring of `s` (Python's `pat in s` on the character lists). -/
def listContainsSub : List Char → List Char → Bool
  | _, [] => true
  | [], _ :: _ => false
  | c :: rest, p :: ps =>
    (p :: ps).isPrefixOf (c :: rest) || listContainsSub rest (p :: ps)

/-- Python `pat in s` for strings. -/
def containsSub (s pat : String) : Bool :=
  listContainsSub s.toList pat.toList


/-- Python `str.lower` on the character list (ASCII, as `.lower()` behaves
on these inputs). -/
def lowerStr (s : String) : String :=
  String.mk (s.toList.map Char.toLower)

/-- Python `str.strip`: remove leading and trailing whitespace. -/
def stripStr (s : String) : String :=
  String.mk (((s.toList.dropWhile Char.isWhitespace).reverse.dropWhile
    Char.isWhitespace).reverse)

/-- Python `str.endswith` / the regex anchor `pat$`. -/
def endsWithStr (s pat : String) : Bool :=
  pat.toList.isSuffixOf s.toList

/-- Python `str.startswith`. -/
def startsWithStr (s pat : String) : Bool :=
  pat.toList.isPrefixOf s.toList

/-- The remainder of `s` after the first occurrence of `pat`, if any
(used to model the regex `pat.*tail`). -/
def afterFirstAux (pat : List Char) : List Char → Option (List Char)
  | [] => if pat.isPrefixOf ([] : List Char) then some [] else none
  | c :: rest =>
    if pat.isPrefixOf (c :: rest) then some ((c :: rest).drop pat.length)
    else afterFirstAux pat rest

/-- Python `a or b` on an optional string: `None` and `""` are falsy. -/
def pyOrStr (v : Option String) (d : String) : String :=
  match v with
  | some s => if s = "" then d else s
  | none => d

/-- Python `a or b` on an optional rational (`0` and `None` are falsy). -/
def pyOrQ (v : Option ℚ) (d : ℚ) : ℚ :=
  match v with
  | some x => if x = 0 then d else x
  | none => d

/-- Python `a or b` on an optional natural number (`0` and `None` are falsy). -/
def pyOrNat (v : Option Nat) (d : Nat) : Nat :=
  match v with
  | some x => if x = 0 then d else x
  | none => d

/-! ## Core domain models (`src/core/models.py`, `src/core/value_objects.py`) -/

/-- Enumeration of supported link types (`LinkType` in `models.py`). -/
inductive LinkType
  | pdf
  | youtube
  | other
deriving DecidableEq, Repr

/-- A single extracted and classified link (`ExtractedLink` in `models.py`). -/
structure ExtractedLink where
  url : String
  link_text : String
  link_type : LinkType
  is_valid : Bool := true
deriving DecidableEq, Repr

/-- Errors of the Python runtime / taxonomy that the embedded code can raise.
`contextual` stands for the `ContextualExtractionError` family. -/
inductive PyError
  | valueError
  | validationError
  | attributeError
  | contextual
deriving DecidableEq, Repr

/-- Whether constructing `ExtractedLink(url=.., link_text=..)` passes pydantic
validation: `url` must be accepted by `HttpUrl` (modelled by the `validUrl`
oracle) and the stripped `link_text` must be non-empty. -/
def linkValid (validUrl : String → Bool) (url text : String) : Bool :=
  validUrl url && !(stripStr text = "")

/-- `ExtractedLink(url=.., link_text=.., link_type=..)`: pydantic construction,
which strips the text and fails on an invalid URL or empty text. -/
def ExtractedLink.make (validUrl : String → Bool) (url text : String)
    (lt : LinkType) : Except PyError ExtractedLink :=
  if linkValid validUrl url text then
    .ok { url := url, link_text := stripStr text, link_type := lt, is_valid := true }
  else .error .validationError

/-- `ProcessingTime` value object (`value_objects.py`): rejects `seconds <= 0`
at construction with a `ValueError`. -/
structure ProcessingTime where
  seconds : ℚ
deriving DecidableEq, Repr

/-- `ProcessingTime(seconds)` with its `__post_init__` validation. -/
def ProcessingTime.make (s : ℚ) : Except PyError ProcessingTime :=
  if s ≤ 0 then .error .valueError else .ok ⟨s⟩

/-- `SourceUrl.from_string`: pydantic `HttpUrl` validation, modelled by the
`validUrl` oracle. The value is kept as the raw string. -/
def SourceUrl.from_string? (validUrl : String → Bool) (url : String) :
    Except PyError String :=
  if validUrl url then .ok url else .error .validationError

/-- `ExtractionMetadata` (`models.py`), restricted to the fields the claims
touch. -/
structure ExtractionMetadata where
  total_links_found : Nat
  pdf_count : Nat
  youtube_count : Nat
  processing_time : ProcessingTime
  correlation_id : String
deriving DecidableEq, Repr

/-- `ExtractionResult` (`models.py`). -/
structure ExtractionResult where
  source_url : String
  pdf_links : List ExtractedLink := []
  youtube_links : List ExtractedLink := []
  other_links : List ExtractedLink := []
  metadata : Option ExtractionMetadata := none
deriving DecidableEq, Repr

/-- The derived `total_links` property of `ExtractionResult`. -/
def ExtractionResult.total_links (r : ExtractionResult) : Nat :=
  r.pdf_links.length + r.youtube_links.length + r.other_links.length

/-! ## Context-aware classifier (`src/infrastructure/context_classifier.py`) -/

namespace ContextAwareClassifier

/-- The pattern `pdf.*download` (case-insensitive search): some occurrence of
`"pdf"` followed, possibly after other characters, by `"download"`. -/
def pdfDownloadMatch (url : String) : Bool :=
  match afterFirstAux "pdf".toList (lowerStr url).toList with
  | some rest => listContainsSub rest "download".toList
  | none => false

/-- `self._pdf_patterns`: `\.pdf$`, `\.pdf[?#]`, `pdf.*download`
(all case-insensitive searches). -/
def pdfMatch (url : String) : Bool :=
  endsWithStr (lowerStr url) ".pdf"
    || containsSub (lowerStr url) ".pdf?"
    || containsSub (lowerStr url) ".pdf#"
    || pdfDownloadMatch url

/-- `self._youtube_patterns`: `youtube\.com/watch`, `youtu\.be/`,
`youtube\.com/embed/`, `youtube-nocookie\.com`, `cdn\.iframe\.ly/.*`. -/
def ytMatch (url : String) : Bool :=
  containsSub (lowerStr url) "youtube.com/watch"
    || containsSub (lowerStr url) "youtu.be/"
    || containsSub (lowerStr url) "youtube.com/embed/"
    || containsSub (lowerStr url) "youtube-nocookie.com"
    || containsSub (lowerStr url) "cdn.iframe.ly/"

/-- After a digit: the regex tail `\s*MB.*pdf` (on the lowered text). -/
def sizePdfFrom (l : List Char) : Bool :=
  let l' := l.dropWhile Char.isWhitespace
  "mb".toList.isPrefixOf l' && listContainsSub (l'.drop 2) "pdf".toList

/-- Search loop for `\d+\s*MB.*pdf` over the lowered text. -/
def hasSizePdfAux : List Char → Bool
  | [] => false
  | c :: rest => (c.isDigit && sizePdfFrom rest) || hasSizePdfAux rest

/-- `re.search(r"\d+\s*MB.*pdf", text, re.I)` as a Boolean. -/
def hasSizePdf (text : String) : Bool :=
  hasSizePdfAux (lowerStr text).toList

/-- `_classify_by_url_patterns`. -/
def classify_by_url_patterns (url : String) : LinkType :=
  if pdfMatch url then .pdf
  else if ytMatch url then .youtube
  else .other

/-- `_classify_with_context`. The `queryUrlParam` oracle models
`parse_qs(urlparse(url).query).get("url", [""])[0] or None` from `urllib`
(an external collaborator): the first `url` query-parameter value when it is
present and non-empty. -/
def classify_with_context (queryUrlParam : String → Option String)
    (url text : String) : LinkType :=
  let url_pattern_type := classify_by_url_patterns url
  if url_pattern_type ≠ .other then url_pattern_type
  else if hasSizePdf text then .pdf
  else
    let step3 :=
      if containsSub (lowerStr url) "iframe.ly" then
        match queryUrlParam url with
        | some proxied => (proxied != "") && ytMatch proxied
        | none => false
      else false
    if step3 then .youtube
    else if containsSub (lowerStr text) "watch" then .youtube
    else .other

/-- `ContextAwareClassifier.classify_links`: constructs an `ExtractedLink`
for every pair with no per-item guard, so the first pydantic validation
failure propagates and fails the whole batch. -/
def classify_links (validUrl : String → Bool)
    (queryUrlParam : String → Option String) :
    List (String × String) → Except PyError (List ExtractedLink)
  | [] => .ok []
  | (url, text) :: rest => do
    let link ← ExtractedLink.make validUrl url text
      (classify_with_context queryUrlParam url text)
    let tail ← classify_links validUrl queryUrlParam rest
    .ok (link :: tail)

end ContextAwareClassifier

/-! ## Factory methods of `ExtractedLink` (`src/core/models.py`) -/

/-- `ExtractedLink.create_pdf_link`: requires the URL to end in `.pdf`
(else `ValueError`); empty text falls back to `"PDF Document"`. -/
def ExtractedLink.create_pdf_link (validUrl : String → Bool)
    (url text : String) : Except PyError ExtractedLink :=
  if !(endsWithStr (lowerStr url) ".pdf") then .error .valueError
  else ExtractedLink.make validUrl url (pyOrStr (some text) "PDF Document") .pdf

/-- `ExtractedLink.create_youtube_link`: requires one of the YouTube URL
patterns (else `ValueError`); empty text falls back to `"YouTube Video"`. -/
def ExtractedLink.create_youtube_link (validUrl : String → Bool)
    (url text : String) : Except PyError ExtractedLink :=
  if !(containsSub (lowerStr url) "youtube.com/watch"
      || containsSub (lowerStr url) "youtu.be/"
      || containsSub (lowerStr url) "youtube.com/embed") then .error .valueError
  else ExtractedLink.make validUrl url (pyOrStr (some text) "YouTube Video") .youtube

/-- `ExtractedLink.create_other_link`: empty text falls back to the URL. -/
def ExtractedLink.create_other_link (validUrl : String → Bool)
    (url text : String) : Except PyError ExtractedLink :=
  ExtractedLink.make validUrl url (pyOrStr (some text) url) .other

/-! ## Regex classifier (`src/infrastructure/link_classifier.py`) -/

namespace RegexLinkClassifier

/-- `self._pdf_patterns`: `\.pdf$`, `/pdf/`, `pdf` (case-insensitive). -/
def pdfMatch (url : String) : Bool :=
  endsWithStr (lowerStr url) ".pdf"
    || containsSub (lowerStr url) "/pdf/"
    || containsSub (lowerStr url) "pdf"

/-- `self._youtube_patterns`: `youtube\.com/watch`, `youtu\.be/`,
`youtube\.com/embed/`, `youtube\.com/playlist`. -/
def ytMatch (url : String) : Bool :=
  containsSub (lowerStr url) "youtube.com/watch"
    || containsSub (lowerStr url) "youtu.be/"
    || containsSub (lowerStr url) "youtube.com/embed/"
    || containsSub (lowerStr url) "youtube.com/playlist"

/-- The body of the per-item `try` block: dispatch to the factory methods. -/
def classify_item (validUrl : String → Bool) (url text : String) :
    Except PyError ExtractedLink :=
  if pdfMatch url then ExtractedLink.create_pdf_link validUrl url text
  else if ytMatch url then ExtractedLink.create_youtube_link validUrl url text
  else ExtractedLink.create_other_link validUrl url text

/-- `RegexLinkClassifier.classify_links`: per-item `except ValueError`
(pydantic's `ValidationError` is a `ValueError` subclass) skips the invalid
item with a logged warning and continues. -/
def classify_links (validUrl : String → Bool) :
    List (String × String) → List ExtractedLink
  | [] => []
  | (url, text) :: rest =>
    match classify_item validUrl url text with
    | .ok link => link :: classify_links validUrl rest
    | .error _ => classify_links validUrl rest

end RegexLinkClassifier

/-! ## Async HTTP client (`src/infrastructure/http_client.py`) -/

/-- Outcome of one HTTP attempt (`client.get` + `raise_for_status`). -/
inductive AttemptOutcome
  | success (body : String)
  | timeout
  | httpStatus (code : Nat)
  | transportError
deriving DecidableEq, Repr

/-- Reason `extract_content` raised `ContentExtractionError`. -/
inductive FetchError
  | timeoutExhausted
  | httpStatusFailed (code : Nat)
  | transport
  | noAttempts
deriving DecidableEq, Repr

/-- Observable trace of one `extract_content` call: how many HTTP attempts
were made, the backoff sleeps performed (in order), and the outcome. -/
structure FetchTrace where
  attempts : Nat
  sleeps : List Nat
  result : Except FetchError String
deriving Repr

/-- The retry loop `for attempt in range(1, self.max_retries + 1)` of
`AsyncHttpClient.extract_content`, with the backend modelled by `oracle`
(outcome of the 1-based attempt number). Fuel counts the remaining
loop iterations. -/
def extract_content_go (oracle : Nat → AttemptOutcome) (max_retries : Nat) :
    Nat → Nat → FetchTrace
  | _, 0 => ⟨0, [], .error .noAttempts⟩
  | attempt, fuel + 1 =>
    match oracle attempt with
    | .success body => ⟨1, [], .ok body⟩
    | .timeout =>
      if attempt < max_retries then
        let t := extract_content_go oracle max_retries (attempt + 1) fuel
        ⟨t.attempts + 1, 2 ^ attempt :: t.sleeps, t.result⟩
      else ⟨1, [], .error .timeoutExhausted⟩
    | .httpStatus code =>
      if 500 ≤ code ∧ code < 600 ∧ attempt < max_retries then
        let t := extract_content_go oracle max_retries (attempt + 1) fuel
        ⟨t.attempts + 1, 2 ^ attempt :: t.sleeps, t.result⟩
      else ⟨1, [], .error (.httpStatusFailed code)⟩
    | .transportError => ⟨1, [], .error .transport⟩

/-- `AsyncHttpClient.extract_content(url)`: run the attempt loop starting at
attempt 1. With `max_retries = 0` the loop body never runs and the trailing
`ContentExtractionError` at the end of the method is raised. -/
def extract_content (oracle : Nat → AttemptOutcome) (max_retries : Nat) :
    FetchTrace :=
  extract_content_go oracle max_retries 1 max_retries

/-- An attempt outcome on which the fetch loop retries: a timeout or an
HTTP 5xx status. -/
def RetryableOutcome (o : AttemptOutcome) : Prop :=
  o = .timeout ∨ ∃ c, o = .httpStatus c ∧ 500 ≤ c ∧ c < 600

/-! ## Client construction (`AsyncHttpClient.__init__`) -/

/-- The fields of the global `settings` object that `__init__` reads. -/
structure Settings where
  http_timeout : ℚ
  max_retries : Nat
  user_agent : String
deriving DecidableEq, Repr

/-- The configuration an `AsyncHttpClient` instance ends up with. -/
structure ClientConfig where
  timeout : ℚ
  max_retries : Nat
  user_agent : String
deriving DecidableEq, Repr

/-- `AsyncHttpClient.__init__`: each argument is coalesced against the global
settings default with Python `or` (a truthiness check). -/
def AsyncHttpClient.init (s : Settings) (timeout : Option ℚ)
    (max_retries : Option Nat) (user_agent : Option String) : ClientConfig :=
  { timeout := pyOrQ timeout s.http_timeout
    max_retries := pyOrNat max_retries s.max_retries
    user_agent := pyOrStr user_agent s.user_agent }

/-! ## HTML parser (`src/infrastructure/html_parser.py`) -/

/-- An HTML element as seen through BeautifulSoup's attribute access:
only the attributes the parser reads. `find_all(tag, src=True)` filters on
attribute presence, so elements reaching the extractors have the attribute
set (possibly to the empty string). -/
structure HtmlElem where
  src : Option String := none
  dataAttr : Option String := none
  title : Option String := none
deriving DecidableEq, Repr

/-- `BeautifulSoupLinkParser._extract_iframe_sources`: for each `iframe` with
a truthy `src`, resolve against the base URL (`urljoin` modelled by the `uj`
oracle) and pair it with `iframe.get("title") or "Embedded Content"`. -/
def extract_iframe_sources (uj : String → String → String) (base : String)
    (iframes : List HtmlElem) : List (String × String) :=
  iframes.filterMap fun e =>
    match e.src with
    | some s => if s = "" then none
        else some (uj base s, pyOrStr e.title "Embedded Content")
    | none => none

/-- `BeautifulSoupLinkParser._extract_embedded_objects`: `object` elements
(text `title or "Embedded Object"`) followed by `embed` elements
(text `title or "Embedded Content"`). -/
def extract_embedded_objects (uj : String → String → String) (base : String)
    (objects embeds : List HtmlElem) : List (String × String) :=
  (objects.filterMap fun e =>
    match e.dataAttr with
    | some d => if d = "" then none
        else some (uj base d, pyOrStr e.title "Embedded Object")
    | none => none)
  ++ (embeds.filterMap fun e =>
    match e.src with
    | some s => if s = "" then none
        else some (uj base s, pyOrStr e.title "Embedded Content")
    | none => none)

/-- `BeautifulSoupLinkParser._get_iframe_text` (defined in the source but
never invoked by the extractors above): video-indicator URLs get the label
`"Embedded Video Content"`, else a truthy `title`, else
`"Embedded Content: {url}"`. -/
def get_iframe_text (e : HtmlElem) (url : String) : String :=
  if ["youtube", "youtu.be", "embed", "iframe.ly"].any
      (fun ind => containsSub (lowerStr url) ind) then "Embedded Video Content"
  else
    match e.title with
    | some t => if t = "" then "Embedded Content: " ++ url else t
    | none => "Embedded Content: " ++ url

/-- What `find_navigation_links` may return: it accumulates the (filtered,
resolved) anchor URLs into a Python `set` and returns `list(set)`, so the
result is some duplicate-free enumeration of exactly the accumulated
members — its order is left unspecified by the code. `discovered` is the
in-document discovery order of the accumulated URLs. -/
def NavigationSetReturn (discovered returned : List String) : Prop :=
  returned.Nodup ∧ ∀ u, u ∈ returned ↔ u ∈ discovered

/-! ## Extraction service (`src/core/service.py`) -/

/-- Re-wrap at the `except` boundary of `extract_and_classify`: a
`ContextualExtractionError` is re-raised as is, anything else is wrapped
into one. -/
def wrapContextual : Except PyError α → Except PyError α
  | .ok a => .ok a
  | .error e => .error (if e = .contextual then e else .contextual)

/-- `ExtractionService.extract_and_classify(url)`: fetch, parse, classify,
bucket the classified links by `link_type`, assemble metadata and result,
and return the raw content alongside. The collaborators are the injected
`content_extractor` (`fetch`), `link_parser` (`parse`) and `link_classifier`
(`classifyLinks`); `elapsed` is `context.get_elapsed_time()` and `cid`
the generated correlation id. -/
def extract_and_classify (validUrl : String → Bool)
    (fetch : String → Except PyError String)
    (parse : String → String → Except PyError (List (String × String)))
    (classifyLinks : List (String × String) → Except PyError (List ExtractedLink))
    (elapsed : ℚ) (cid : String) (url : String) :
    Except PyError (ExtractionResult × String) :=
  wrapContextual (do
    let content ← fetch url
    let raw_links ← parse content url
    let classified_links ← classifyLinks raw_links
    let processing_time ← ProcessingTime.make elapsed
    let pdf_links := classified_links.filter fun l => l.link_type = .pdf
    let youtube_links := classified_links.filter fun l => l.link_type = .youtube
    let other_links := classified_links.filter fun l => l.link_type = .other
    let metadata : ExtractionMetadata :=
      { total_links_found := classified_links.length
        pdf_count := pdf_links.length
        youtube_count := youtube_links.length
        processing_time := processing_time
        correlation_id := cid }
    let source_url ← SourceUrl.from_string? validUrl url
    .ok ({ source_url := source_url
           pdf_links := pdf_links
           youtube_links := youtube_links
           other_links := other_links
           metadata := some metadata }, content))

/-- The crawl's priority test: any of the fixed keywords occurs in
`link.lower()`. -/
def isPriorityLink (link : String) : Bool :=
  ["module", "lesson", "course", "chapter", "part"].any
    fun k => containsSub (lowerStr link) k

/-- The crawl's per-page ordering of discovered navigation links:
`priority_links + other_links` (lines 189-198 of `service.py`). -/
def orderLinks (navigation_links : List String) : List String :=
  let priority_links := navigation_links.filter isPriorityLink
  let other_links :=
    navigation_links.filter fun link => decide (link ∉ priority_links)
  priority_links ++ other_links

/-- The crawl's frontier extension loop (lines 200-202 of `service.py`):
append each link not already visited and not already queued. -/
def enqueueLinks (visited : List String) (frontier : List String)
    (links : List String) : List String :=
  links.foldl
    (fun fr link =>
      if link ∈ visited ∨ link ∈ fr then fr else fr ++ [link])
    frontier

/-- The loop state of `crawl_and_extract`: the visited set (as the ordered
list of URLs handed to `extract_and_classify`), the frontier queue, and the
running aggregate. -/
structure CrawlState where
  visited : List String
  frontier : List String
  final : Option ExtractionResult
deriving DecidableEq, Repr

/-- One iteration of the `while` body of `crawl_and_extract`. `pageExtract`
is `self.extract_and_classify(url, save_result=False)`; `findNav` is
`self._link_parser.find_navigation_links(content, current_url)`.
When the aggregate already exists, the source calls
`final_result.merge_with(page_result)` — a method `ExtractionResult` does
not define — so that iteration raises `AttributeError`, which the blanket
`except Exception` catches: the page's result is dropped and its navigation
links are never discovered. -/
def crawlStep (pageExtract : String → Except PyError (ExtractionResult × String))
    (findNav : String → String → List String) (s : CrawlState) : CrawlState :=
  match s.frontier with
  | [] => s
  | current :: rest =>
    if current ∈ s.visited then { s with frontier := rest }
    else
      let visited' := s.visited ++ [current]
      match pageExtract current with
      | .error _ => { s with visited := visited', frontier := rest }
      | .ok (page_result, content) =>
        match s.final with
        | none =>
          let navigation_links := findNav content current
          let ordered_links := orderLinks navigation_links
          { visited := visited'
            frontier := enqueueLinks visited' rest ordered_links
            final := some page_result }
        | some _ => { s with visited := visited', frontier := rest }

/-- The `while urls_to_visit and len(visited_urls) < max_pages` loop,
fuelled. -/
def crawlLoop (pageExtract : String → Except PyError (ExtractionResult × String))
    (findNav : String → String → List String) (max_pages : Nat) :
    Nat → CrawlState → CrawlState
  | 0, s => s
  | fuel + 1, s =>
    if s.frontier = [] ∨ max_pages ≤ s.visited.length then s
    else crawlLoop pageExtract findNav max_pages fuel (crawlStep pageExtract findNav s)

/-- `ExtractionService.crawl_and_extract(start_url, max_pages)`: run the
loop from `frontier = [start_url]`, `visited = {}`; if no page ever
succeeded, build the empty result — whose metadata calls
`ProcessingTime(0.0)`. -/
def crawl_and_extract (validUrl : String → Bool)
    (pageExtract : String → Except PyError (ExtractionResult × String))
    (findNav : String → String → List String)
    (start_url : String) (max_pages fuel : Nat) :
    Except PyError ExtractionResult :=
  let s := crawlLoop pageExtract findNav max_pages fuel
    { visited := [], frontier := [start_url], final := none }
  match s.final with
  | some final_result => .ok final_result
  | none => do
    let source_url ← SourceUrl.from_string? validUrl start_url
    let pt ← ProcessingTime.make 0
    .ok { source_url := source_url
          metadata := some
            { total_links_found := 0
              pdf_count := 0
              youtube_count := 0
              processing_time := pt
              correlation_id := "generated" } }

/-! ## Concrete fixtures used by the claim theorems and witnesses -/

/-- A page extractor whose every fetch fails (backend always erroring):
models a crawl in which no page is ever successfully extracted. -/
def failPageExtract : String → Except PyError (ExtractionResult × String) :=
  fun _ => .error .contextual

/-- A navigation-link finder that finds nothing. -/
def emptyFindNav : String → String → List String := fun _ _ => []

/-- A stand-in for pydantic `HttpUrl` validation used in concrete runs:
accepts the `http(s)` fixtures below and rejects `"::bad::"` the way
`HttpUrl("::bad::")` raises a `ValidationError`. -/
def startsHttpValidUrl : String → Bool := fun u => startsWithStr u "http"

/-- Backend of the two-page crawl fixture: the start page and one subpage
both fetch successfully. -/
def twoPageFetch : String → Except PyError String := fun url =>
  if url = "https://s.example/" then .ok "c1"
  else if url = "https://s.example/p2" then .ok "c2"
  else .error .contextual

/-- Parser of the two-page crawl fixture: page one carries one plain link,
page two carries one PDF link. -/
def twoPageParse : String → String → Except PyError (List (String × String)) :=
  fun content _ =>
    if content = "c1" then .ok [("https://s.example/home", "Home")]
    else .ok [("https://s.example/doc.pdf", "Report")]

/-- The classifier collaborator of the two-page fixture. -/
def twoPageClassify : List (String × String) → Except PyError (List ExtractedLink) :=
  fun ls => .ok (RegexLinkClassifier.classify_links startsHttpValidUrl ls)

/-- `extract_and_classify` with the two-page fixture collaborators plugged
in, as the crawl loop calls it. -/
def twoPageExtract : String → Except PyError (ExtractionResult × String) :=
  extract_and_classify startsHttpValidUrl twoPageFetch twoPageParse
    twoPageClassify 1 "cid00000"

/-- Navigation discovery of the two-page fixture: page one links to page
two. -/
def twoPageFindNav : String → String → List String := fun content _ =>
  if content = "c1" then ["https://s.example/p2"] else []

/-- Batch with one invalid URL in the middle (`HttpUrl` rejects it). -/
def mixedBatch : List (String × String) :=
  [("https://good.example/", "ok"), ("::bad::", "x"),
   ("https://also.example/", "fine")]

/-- Fetch backend for the retry-bound witness: timeout, then HTTP 503, then
success. -/
def retryOracle : Nat → AttemptOutcome := fun i =>
  if i = 1 then .timeout
  else if i = 2 then .httpStatus 503
  else .success "ok"

/-- An attempt outcome on which the fetch loop fails without retrying:
a transport error, or an HTTP status error outside the 5xx range. -/
def NonRetryFailure (o : AttemptOutcome) : Prop :=
  o = .transportError ∨ ∃ c, o = .httpStatus c ∧ ¬(500 ≤ c ∧ c < 600)

/-- Two same-host navigation links, neither containing a priority keyword. -/
def navA : String := "https://s.example/a"

/-- Second navigation link of the ordering fixture. -/
def navB : String := "https://s.example/b"

/-- An iframe element with a YouTube embed `src` and no `title`. -/
def ytIframe : HtmlElem := { src := some "https://www.youtube.com/embed/abc" }

/-- An iframe element with a non-empty `title`. -/
def titledIframe : HtmlElem :=
  { src := some "https://player.example/clip", title := some "My Clip" }

/-! ## Claim C1 — total-failure crawl path -/

/-- C1: contrary to the claim, a crawl in which no page is ever successfully
extracted does not return a well-formed empty `ExtractionResult`: the
empty-result branch of `crawl_and_extract` constructs `ProcessingTime(0.0)`,
whose `__post_init__` rejects any non-positive duration, so the call raises
`ValueError("Processing time must be positive")`. Shown on a crawl whose
every fetch fails (`max_pages = 5`), on a crawl with `max_pages = 0`, and on
the constructor itself. -/
theorem claim_C1_total_failure_raises_value_error :
    crawl_and_extract (fun _ => true) failPageExtract emptyFindNav
      "https://example.com" 5 10 = .error .valueError
    ∧ crawl_and_extract (fun _ => true) failPageExtract emptyFindNav
      "https://example.com" 0 10 = .error .valueError
    ∧ ProcessingTime.make 0 = .error .valueError :=
  ⟨rfl, rfl, rfl⟩

/-! ## Claim C2 — multi-page aggregation -/

/-- C2: contrary to the claim, when two pages are successfully extracted the
aggregate does not concatenate their buckets. The source calls
`final_result.merge_with(page_result)`, a method `ExtractionResult` never
defines, so the second successful page raises `AttributeError`, which the
crawl's blanket `except Exception` swallows. Here both pages extract
successfully (page two with one PDF link), yet the crawl returns page one's
result alone: the aggregate's PDF bucket is empty. -/
theorem claim_C2_merge_discards_later_pages :
    twoPageExtract "https://s.example/p2"
      = .ok ({ source_url := "https://s.example/p2"
               pdf_links := [{ url := "https://s.example/doc.pdf"
                               link_text := "Report", link_type := .pdf }]
               youtube_links := []
               other_links := []
               metadata := some { total_links_found := 1, pdf_count := 1
                                  youtube_count := 0
                                  processing_time := ⟨1⟩
                                  correlation_id := "cid00000" } }, "c2")
    ∧ (crawlLoop twoPageExtract twoPageFindNav 5 10
        { visited := [], frontier := ["https://s.example/"], final := none }).visited
      = ["https://s.example/", "https://s.example/p2"]
    ∧ crawl_and_extract startsHttpValidUrl twoPageExtract twoPageFindNav
        "https://s.example/" 5 10
      = .ok { source_url := "https://s.example/"
              pdf_links := []
              youtube_links := []
              other_links := [{ url := "https://s.example/home"
                                link_text := "Home", link_type := .other }]
              metadata := some { total_links_found := 1, pdf_count := 0
                                 youtube_count := 0
                                 processing_time := ⟨1⟩
                                 correlation_id := "cid00000" } } :=
  ⟨rfl, rfl, rfl⟩

/-! ## Claim C10 — constructor truthiness coalescing -/

/-- C10: `AsyncHttpClient.__init__` coalesces each argument against the
global settings default with Python `or`, a truthiness check: explicitly
passing `max_retries=0`, `timeout=0`, or an empty user agent yields the
configured default, and the only way an instance ends up with zero retries
or a zero timeout is for the default itself to be zero. -/
theorem claim_C10_truthy_coalescing (s : Settings) :
    AsyncHttpClient.init s (some 0) (some 0) (some "")
      = { timeout := s.http_timeout, max_retries := s.max_retries
          user_agent := s.user_agent }
    ∧ ∀ t r u,
        ((AsyncHttpClient.init s t r u).max_retries = 0 → s.max_retries = 0)
        ∧ ((AsyncHttpClient.init s t r u).timeout = 0 → s.http_timeout = 0) := by
  refine ⟨rfl, fun t r u => ⟨?_, ?_⟩⟩
  · cases r with
    | none => simp [AsyncHttpClient.init, pyOrNat]
    | some x =>
      by_cases hx : x = 0
      · simp [AsyncHttpClient.init, pyOrNat, hx]
      · intro h
        simp only [AsyncHttpClient.init, pyOrNat, if_neg hx] at h
        exact absurd h hx
  · cases t with
    | none => simp [AsyncHttpClient.init, pyOrQ]
    | some x =>
      by_cases hx : x = 0
      · simp [AsyncHttpClient.init, pyOrQ, hx]
      · intro h
        simp only [AsyncHttpClient.init, pyOrQ, if_neg hx] at h
        exact absurd h hx

/-- Witness for C10 at concrete settings. -/
theorem claim_C10_witness :
    AsyncHttpClient.init ⟨30, 3, "WebExtractor/1.0"⟩ (some 0) (some 0) (some "")
      = ⟨30, 3, "WebExtractor/1.0"⟩
    ∧ ((AsyncHttpClient.init ⟨30, 3, "WebExtractor/1.0"⟩ (some 0) (some 0)
        (some "")).max_retries = 0 → (3 : Nat) = 0) :=
  ⟨(claim_C10_truthy_coalescing ⟨30, 3, "WebExtractor/1.0"⟩).1,
   ((claim_C10_truthy_coalescing ⟨30, 3, "WebExtractor/1.0"⟩).2
     (some 0) (some 0) (some "")).1⟩

/-! ## Claim C5 — text-context fallback -/

/-- C5 counterexample: the claim reads the two text fallbacks as independent
conditionals, but the code checks the file-size rule first. For a URL
matching neither pattern set and the text `"3MB pdf watch now"` — which
contains the word `"watch"` — the classifier returns `PDF`, not `YOUTUBE`,
so "text containing `watch` classifies as Video" is false as stated. -/
theorem claim_C5_counterexample :
    ContextAwareClassifier.pdfMatch "https://x.example/a" = false
    ∧ ContextAwareClassifier.ytMatch "https://x.example/a" = false
    ∧ containsSub (lowerStr "3MB pdf watch now") "watch" = true
    ∧ ContextAwareClassifier.classify_with_context (fun _ => none)
        "https://x.example/a" "3MB pdf watch now" = .pdf
    ∧ LinkType.pdf ≠ LinkType.youtube :=
  ⟨rfl, rfl, rfl, rfl, by decide⟩

/-- C5 amended: for a candidate whose URL matches neither pattern set, a
numeric file-size annotation adjacent to "pdf" classifies as Document; a
display text containing "watch" classifies as Video provided the file-size
rule did not already match (the fallbacks are tried in that order); and the
spec's example — text "3MB pdf guide", URL without any PDF signal —
classifies as Document. -/
theorem claim_C5_amended_text_fallback
    (queryUrlParam : String → Option String) (url text : String)
    (hp : ContextAwareClassifier.pdfMatch url = false)
    (hy : ContextAwareClassifier.ytMatch url = false) :
    (ContextAwareClassifier.hasSizePdf text = true →
      ContextAwareClassifier.classify_with_context queryUrlParam url text = .pdf)
    ∧ (ContextAwareClassifier.hasSizePdf text = false →
        containsSub (lowerStr text) "watch" = true →
        ContextAwareClassifier.classify_with_context queryUrlParam url text
          = .youtube)
    ∧ ContextAwareClassifier.classify_with_context queryUrlParam
        "https://cdn.example.com/asset?id=42" "3MB pdf guide" = .pdf := by
  refine ⟨?_, ?_, ?_⟩
  · intro hs
    simp [ContextAwareClassifier.classify_with_context,
      ContextAwareClassifier.classify_by_url_patterns, hp, hy, hs]
  · intro hs hw
    simp [ContextAwareClassifier.classify_with_context,
      ContextAwareClassifier.classify_by_url_patterns, hp, hy, hs, hw,
      ite_self]
  · rfl

/-- Witness for C5 at the spec's own example input. -/
theorem claim_C5_witness :
    ContextAwareClassifier.classify_with_context (fun _ => none)
      "https://cdn.example.com/asset?id=42" "3MB pdf guide" = .pdf :=
  (claim_C5_amended_text_fallback (fun _ => none)
    "https://x.example/a" "3MB pdf guide" rfl rfl).2.2

/-! ## Claim C7 — iframe/embed/object display text -/

/-- Soundness of the shared extractor shape: every produced pair comes from
an element of the input list with a truthy source attribute, its URL is that
element's resolved source, and its text is that element's `title` when
present and non-empty, else exactly the extractor's fixed label. -/
theorem embedded_extract_sound (get : HtmlElem → Option String) (label : String)
    (uj : String → String → String) (base : String) (es : List HtmlElem) :
    ∀ p ∈ es.filterMap (fun e =>
        match get e with
        | some s => if s = "" then none else some (uj base s, pyOrStr e.title label)
        | none => none),
      ∃ e ∈ es, ∃ s, get e = some s ∧ s ≠ "" ∧ p.1 = uj base s
        ∧ ((∃ t, e.title = some t ∧ t ≠ "" ∧ p.2 = t)
            ∨ ((e.title = none ∨ e.title = some "") ∧ p.2 = label)) := by
  intro p hp
  rcases List.mem_filterMap.mp hp with ⟨e, he, hm⟩
  cases hsrc : get e with
  | none => simp only [hsrc] at hm; cases hm
  | some s =>
    simp only [hsrc] at hm
    by_cases hs : s = ""
    · rw [if_pos hs] at hm; cases hm
    · rw [if_neg hs] at hm
      have hp' : p = (uj base s, pyOrStr e.title label) := (Option.some.inj hm).symm
      refine ⟨e, he, s, hsrc, hs, by rw [hp'], ?_⟩
      have hp2 : p.2 = pyOrStr e.title label := by rw [hp']
      cases ht : e.title with
      | none => exact Or.inr ⟨Or.inl rfl, by rw [hp2, ht]; rfl⟩
      | some t =>
        by_cases h0 : t = ""
        · subst h0
          exact Or.inr ⟨Or.inr rfl, by rw [hp2, ht]; simp [pyOrStr]⟩
        · exact Or.inl ⟨t, rfl, h0, by rw [hp2, ht]; simp [pyOrStr, h0]⟩

/-- Completeness of the shared extractor shape: every element with a truthy
source attribute contributes its pair to the output. -/
theorem embedded_extract_complete (get : HtmlElem → Option String)
    (label : String) (uj : String → String → String) (base : String)
    (es : List HtmlElem) :
    ∀ e ∈ es, ∀ s, get e = some s → s ≠ "" →
      (uj base s, pyOrStr e.title label)
        ∈ es.filterMap (fun e =>
            match get e with
            | some s => if s = "" then none
                else some (uj base s, pyOrStr e.title label)
            | none => none) := by
  intro e he s hsrc hs
  refine List.mem_filterMap.mpr ⟨e, he, ?_⟩
  simp only [hsrc]
  rw [if_neg hs]

/-- Python `title or label` spelled out: the title when present and
non-empty, the label otherwise. -/
theorem pyOrStr_title_policy (o : Option String) (label : String) :
    (∃ t, o = some t ∧ t ≠ "" ∧ pyOrStr o label = t)
    ∨ ((o = none ∨ o = some "") ∧ pyOrStr o label = label) := by
  cases o with
  | none => exact Or.inr ⟨Or.inl rfl, rfl⟩
  | some t =>
    by_cases h0 : t = ""
    · subst h0
      exact Or.inr ⟨Or.inr rfl, by simp [pyOrStr]⟩
    · exact Or.inl ⟨t, rfl, h0, by simp [pyOrStr, h0]⟩

/-- C7 counterexample: `_extract_iframe_sources` pairs an iframe's resolved
URL with `title or "Embedded Content"`; it never calls `_get_iframe_text`.
A title-less YouTube-embed iframe therefore gets the text
`"Embedded Content"`, while the claim's policy (implemented only in the
dead helper `_get_iframe_text`) would label it
`"Embedded Video Content"`. -/
theorem claim_C7_counterexample :
    extract_iframe_sources (fun _ s => s) "https://base.example/" [ytIframe]
      = [("https://www.youtube.com/embed/abc", "Embedded Content")]
    ∧ get_iframe_text ytIframe "https://www.youtube.com/embed/abc"
      = "Embedded Video Content"
    ∧ ("Embedded Content" : String) ≠ "Embedded Video Content" :=
  ⟨rfl, rfl, by decide⟩

/-- C7 amended: for every iframe, embed, or object element parsed, the
produced display text is exactly that element's `title` attribute when
present and non-empty, and otherwise the fixed label of the element's kind —
`"Embedded Content"` for iframes and embeds, `"Embedded Object"` for
objects; conversely every element with a truthy source attribute produces
exactly its resolved URL paired with that text. The URL-sensitive
`"Embedded Video Content"` / `"Embedded Content: {url}"` policy of
`_get_iframe_text` is never applied. -/
theorem claim_C7_amended_title_or_fixed_label
    (uj : String → String → String) (base : String)
    (iframes objects embeds : List HtmlElem) :
    (∀ p ∈ extract_iframe_sources uj base iframes,
      ∃ e ∈ iframes, ∃ s, e.src = some s ∧ s ≠ "" ∧ p.1 = uj base s
        ∧ ((∃ t, e.title = some t ∧ t ≠ "" ∧ p.2 = t)
            ∨ ((e.title = none ∨ e.title = some "")
                ∧ p.2 = "Embedded Content")))
    ∧ (∀ e ∈ iframes, ∀ s, e.src = some s → s ≠ "" →
        (uj base s, pyOrStr e.title "Embedded Content")
          ∈ extract_iframe_sources uj base iframes)
    ∧ (∀ p ∈ extract_embedded_objects uj base objects embeds,
        (∃ e ∈ objects, ∃ s, e.dataAttr = some s ∧ s ≠ "" ∧ p.1 = uj base s
          ∧ ((∃ t, e.title = some t ∧ t ≠ "" ∧ p.2 = t)
              ∨ ((e.title = none ∨ e.title = some "")
                  ∧ p.2 = "Embedded Object")))
        ∨ (∃ e ∈ embeds, ∃ s, e.src = some s ∧ s ≠ "" ∧ p.1 = uj base s
          ∧ ((∃ t, e.title = some t ∧ t ≠ "" ∧ p.2 = t)
              ∨ ((e.title = none ∨ e.title = some "")
                  ∧ p.2 = "Embedded Content"))))
    ∧ (∀ e ∈ objects, ∀ s, e.dataAttr = some s → s ≠ "" →
        (uj base s, pyOrStr e.title "Embedded Object")
          ∈ extract_embedded_objects uj base objects embeds)
    ∧ (∀ e ∈ embeds, ∀ s, e.src = some s → s ≠ "" →
        (uj base s, pyOrStr e.title "Embedded Content")
          ∈ extract_embedded_objects uj base objects embeds)
    ∧ (∀ (o : Option String) (label : String),
        (∃ t, o = some t ∧ t ≠ "" ∧ pyOrStr o label = t)
        ∨ ((o = none ∨ o = some "") ∧ pyOrStr o label = label)) := by
  refine ⟨?_, ?_, ?_, ?_, ?_, pyOrStr_title_policy⟩
  · exact embedded_extract_sound (fun e => e.src) "Embedded Content" uj base iframes
  · exact embedded_extract_complete (fun e => e.src) "Embedded Content" uj base
      iframes
  · intro p hp
    rcases List.mem_append.mp hp with h | h
    · exact Or.inl (embedded_extract_sound (fun e => e.dataAttr)
        "Embedded Object" uj base objects p h)
    · exact Or.inr (embedded_extract_sound (fun e => e.src)
        "Embedded Content" uj base embeds p h)
  · intro e he s hsrc hs
    exact List.mem_append_left _
      (embedded_extract_complete (fun e => e.dataAttr) "Embedded Object" uj base
        objects e he s hsrc hs)
  · intro e he s hsrc hs
    exact List.mem_append_right _
      (embedded_extract_complete (fun e => e.src) "Embedded Content" uj base
        embeds e he s hsrc hs)

/-- Witness for C7: the titled iframe produces its resolved URL paired with
its (non-empty) title. -/
theorem claim_C7_witness :
    ("https://player.example/clip", "My Clip")
      ∈ extract_iframe_sources (fun _ s => s) "https://base.example/"
          [titledIframe] :=
  (claim_C7_amended_title_or_fixed_label (fun _ s => s) "https://base.example/"
    [titledIframe] [] []).2.1 titledIframe (List.mem_singleton.mpr rfl)
    "https://player.example/clip" rfl (by decide)

/-! ## Claim C3 — per-item failure tolerance of classification -/

/-- C3 counterexample: on a batch whose middle candidate has a URL pydantic
rejects, `ContextAwareClassifier.classify_links` (the classifier the CLI
wires in) raises out of the whole call — no remaining candidate is
classified — while `RegexLinkClassifier.classify_links` drops the item and
returns the other two. -/
theorem claim_C3_counterexample :
    ContextAwareClassifier.classify_links startsHttpValidUrl (fun _ => none)
      mixedBatch = .error .validationError
    ∧ RegexLinkClassifier.classify_links startsHttpValidUrl mixedBatch
      = [{ url := "https://good.example/", link_text := "ok", link_type := .other },
         { url := "https://also.example/", link_text := "fine", link_type := .other }] :=
  ⟨rfl, rfl⟩

/-- C3 amended: the claimed per-item tolerance holds for
`RegexLinkClassifier.classify_links` — it equals the per-item classification
with failing items dropped, never failing the batch — whereas
`ContextAwareClassifier.classify_links` fails the whole call whenever any
candidate is rejected at link-record construction. -/
theorem claim_C3_amended_per_item_tolerance
    (validUrl : String → Bool) (queryUrlParam : String → Option String)
    (links : List (String × String)) :
    RegexLinkClassifier.classify_links validUrl links
      = links.filterMap
          (fun p => (RegexLinkClassifier.classify_item validUrl p.1 p.2).toOption)
    ∧ (∀ p ∈ links, linkValid validUrl p.1 p.2 = false →
        ∀ res, ContextAwareClassifier.classify_links validUrl queryUrlParam links
          ≠ .ok res) := by
  constructor
  · induction links with
    | nil => rfl
    | cons x xs ih =>
      obtain ⟨u, t⟩ := x
      cases h : RegexLinkClassifier.classify_item validUrl u t with
      | ok l =>
        simp [RegexLinkClassifier.classify_links, h, Except.toOption, ih]
      | error e =>
        simp [RegexLinkClassifier.classify_links, h, Except.toOption, ih]
  · induction links with
    | nil => intro p hp; cases hp
    | cons x xs ih =>
      intro p hp hval res
      obtain ⟨u, t⟩ := x
      rcases List.mem_cons.mp hp with hhead | hmem
      · have hmake : ExtractedLink.make validUrl u t
            (ContextAwareClassifier.classify_with_context queryUrlParam u t)
            = .error .validationError := by
          rw [hhead] at hval
          simp [ExtractedLink.make, hval]
        simp only [ContextAwareClassifier.classify_links, hmake]
        intro hcontra
        exact Except.noConfusion hcontra
      · cases hmk : ExtractedLink.make validUrl u t
            (ContextAwareClassifier.classify_with_context queryUrlParam u t) with
        | error e =>
          simp only [ContextAwareClassifier.classify_links, hmk]
          intro hcontra
          exact Except.noConfusion hcontra
        | ok l =>
          cases htl : ContextAwareClassifier.classify_links validUrl queryUrlParam xs with
          | error e =>
            simp only [ContextAwareClassifier.classify_links, hmk, htl]
            intro hcontra
            exact Except.noConfusion hcontra
          | ok tl => exact absurd htl (ih p hmem hval tl)

/-- Witness for C3 on the mixed batch. -/
theorem claim_C3_witness :
    RegexLinkClassifier.classify_links startsHttpValidUrl mixedBatch
      = mixedBatch.filterMap
          (fun p => (RegexLinkClassifier.classify_item startsHttpValidUrl p.1 p.2).toOption)
    ∧ ContextAwareClassifier.classify_links startsHttpValidUrl (fun _ => none)
        mixedBatch ≠ .ok [] :=
  ⟨(claim_C3_amended_per_item_tolerance startsHttpValidUrl (fun _ => none)
      mixedBatch).1,
   (claim_C3_amended_per_item_tolerance startsHttpValidUrl (fun _ => none)
      mixedBatch).2 ("::bad::", "x") (by decide) rfl []⟩

/-! ## Claim C6 — frontier ordering -/

/-- The frontier-extension fold appends (in input order) exactly those links
not yet visited and not yet queued — soundness and completeness — each at
most once. -/
theorem enqueueLinks_spec (visited : List String) :
    ∀ (links frontier : List String), ∃ seg,
      enqueueLinks visited frontier links = frontier ++ seg
      ∧ seg.Nodup
      ∧ (∀ l ∈ seg, l ∈ links ∧ l ∉ visited ∧ l ∉ frontier)
      ∧ (∀ l ∈ links, l ∉ visited → l ∉ frontier → l ∈ seg) := by
  intro links
  induction links with
  | nil =>
    intro fr
    exact ⟨[], by simp [enqueueLinks], List.nodup_nil, by simp, by simp⟩
  | cons x xs ih =>
    intro fr
    by_cases hx : x ∈ visited ∨ x ∈ fr
    · obtain ⟨seg, h1, h2, h3, h4⟩ := ih fr
      refine ⟨seg, ?_, h2, fun l hl => ?_, fun l hl hv hf => ?_⟩
      · simp only [enqueueLinks, List.foldl_cons, if_pos hx]
        simpa [enqueueLinks] using h1
      · obtain ⟨ha, hb, hc⟩ := h3 l hl
        exact ⟨List.mem_cons_of_mem _ ha, hb, hc⟩
      · rcases List.mem_cons.mp hl with rfl | hl2
        · rcases hx with hx1 | hx2
          · exact absurd hx1 hv
          · exact absurd hx2 hf
        · exact h4 l hl2 hv hf
    · push_neg at hx
      obtain ⟨seg, h1, h2, h3, h4⟩ := ih (fr ++ [x])
      refine ⟨x :: seg, ?_, ?_, fun l hl => ?_, fun l hl hv hf => ?_⟩
      · simp only [enqueueLinks, List.foldl_cons,
          if_neg (by push_neg; exact hx :
            ¬(x ∈ visited ∨ x ∈ fr))]
        simp only [enqueueLinks] at h1
        rw [h1, List.append_assoc]
        rfl
      · refine List.nodup_cons.mpr ⟨fun hxs => ?_, h2⟩
        exact (h3 x hxs).2.2 (List.mem_append_right _ (List.mem_singleton.mpr rfl))
      · rcases List.mem_cons.mp hl with rfl | hl2
        · exact ⟨List.mem_cons_self _ _, hx.1, hx.2⟩
        · obtain ⟨ha, hb, hc⟩ := h3 l hl2
          exact ⟨List.mem_cons_of_mem _ ha, hb,
            fun hf2 => hc (List.mem_append_left _ hf2)⟩
      · rcases List.mem_cons.mp hl with rfl | hl2
        · exact List.mem_cons_self _ _
        · by_cases hlx : l = x
          · subst hlx
            exact List.mem_cons_self _ _
          · refine List.mem_cons_of_mem _ (h4 l hl2 hv ?_)
            intro hmem
            rcases List.mem_append.mp hmem with hm1 | hm2
            · exact hf hm1
            · exact hlx (List.mem_singleton.mp hm2)

/-- C6 counterexample: `find_navigation_links` returns `list(set)`, whose
order is not the discovery order. With two non-priority links discovered in
order `[navA, navB]`, the return `[navB, navA]` is a legitimate
`list(set)` enumeration, and the crawl then queues `navB` before `navA` —
not the page's link-discovery order the claim asserts. -/
theorem claim_C6_counterexample :
    NavigationSetReturn [navA, navB] [navB, navA]
    ∧ isPriorityLink navA = false
    ∧ isPriorityLink navB = false
    ∧ enqueueLinks [] [] (orderLinks [navB, navA]) = [navB, navA]
    ∧ ([navB, navA] : List String) ≠ [navA, navB] := by
  refine ⟨⟨by decide, fun u => ?_⟩, rfl, rfl, rfl, by decide⟩
  simp only [List.mem_cons, List.not_mem_nil, or_false]
  tauto

/-- C6 amended: whatever enumeration the parser's `set` yields, the crawl
appends exactly the page's fresh discovered links (those not already
visited and not already queued) at the tail of the frontier — FIFO across
pages — with every priority link placed before every non-priority link of
the same page and nothing queued twice; the within-page order among links
of the same priority class is the set enumeration's, not the discovery
order. -/
theorem claim_C6_amended_priority_prefix_fifo
    (visited frontier returned : List String) :
    ∃ segP segN,
      enqueueLinks visited frontier (orderLinks returned)
        = frontier ++ (segP ++ segN)
      ∧ (∀ l ∈ segP, l ∈ returned ∧ isPriorityLink l = true)
      ∧ (∀ l ∈ segN, l ∈ returned ∧ isPriorityLink l = false)
      ∧ (∀ l ∈ segP ++ segN, l ∉ visited ∧ l ∉ frontier)
      ∧ (∀ l ∈ returned, l ∉ visited → l ∉ frontier → l ∈ segP ++ segN)
      ∧ (segP ++ segN).Nodup := by
  obtain ⟨segP, h1, h2, h3, h4⟩ :=
    enqueueLinks_spec visited (returned.filter isPriorityLink) frontier
  obtain ⟨segN, g1, g2, g3, g4⟩ :=
    enqueueLinks_spec visited
      (returned.filter fun l => decide (l ∉ returned.filter isPriorityLink))
      (frontier ++ segP)
  have hfold : enqueueLinks visited frontier (orderLinks returned)
      = enqueueLinks visited
          (enqueueLinks visited frontier (returned.filter isPriorityLink))
          (returned.filter fun l =>
            decide (l ∉ returned.filter isPriorityLink)) := by
    simp only [orderLinks, enqueueLinks, List.foldl_append]
  have hsegP_sub : ∀ l ∈ segP, l ∈ returned.filter isPriorityLink :=
    fun l hl => (h3 l hl).1
  refine ⟨segP, segN, ?_, ?_, ?_, ?_, ?_, ?_⟩
  · rw [hfold, h1, g1, List.append_assoc]
  · intro l hl
    have hm := List.mem_filter.mp (hsegP_sub l hl)
    exact ⟨hm.1, hm.2⟩
  · intro l hl
    have hmem := List.mem_filter.mp (g3 l hl).1
    have hnp : l ∉ returned.filter isPriorityLink := of_decide_eq_true hmem.2
    refine ⟨hmem.1, ?_⟩
    cases hpl : isPriorityLink l with
    | false => rfl
    | true => exact absurd (List.mem_filter.mpr ⟨hmem.1, hpl⟩) hnp
  · intro l hl
    rcases List.mem_append.mp hl with h | h
    · exact ⟨(h3 l h).2.1, (h3 l h).2.2⟩
    · exact ⟨(g3 l h).2.1, fun hf => (g3 l h).2.2 (List.mem_append_left _ hf)⟩
  · intro l hl hv hf
    cases hpl : isPriorityLink l with
    | true =>
      have hP : l ∈ returned.filter isPriorityLink :=
        List.mem_filter.mpr ⟨hl, hpl⟩
      exact List.mem_append_left _ (h4 l hP hv hf)
    | false =>
      have hnotP : l ∉ returned.filter isPriorityLink := by
        intro hP
        have htrue := (List.mem_filter.mp hP).2
        rw [hpl] at htrue
        cases htrue
      have hO : l ∈ returned.filter fun l2 =>
          decide (l2 ∉ returned.filter isPriorityLink) :=
        List.mem_filter.mpr ⟨hl, decide_eq_true hnotP⟩
      have hfP : l ∉ frontier ++ segP := by
        intro hmem
        rcases List.mem_append.mp hmem with hm1 | hm2
        · exact hf hm1
        · exact hnotP (hsegP_sub l hm2)
      exact List.mem_append_right _ (g4 l hO hv hfP)
  · rw [List.nodup_append]
    exact ⟨h2, g2, fun a ha hb =>
      (g3 a hb).2.2 (List.mem_append_right _ ha)⟩

/-- Witness for C6 on a concrete page with one priority and one
non-priority link. -/
theorem claim_C6_witness :
    ∃ segP segN,
      enqueueLinks [] [] (orderLinks ["https://s.example/course1", navA])
        = [] ++ (segP ++ segN)
      ∧ (∀ l ∈ segP,
          l ∈ ["https://s.example/course1", navA] ∧ isPriorityLink l = true)
      ∧ (∀ l ∈ segN,
          l ∈ ["https://s.example/course1", navA] ∧ isPriorityLink l = false)
      ∧ (∀ l ∈ segP ++ segN, l ∉ ([] : List String) ∧ l ∉ ([] : List String))
      ∧ (∀ l ∈ ["https://s.example/course1", navA],
          l ∉ ([] : List String) → l ∉ ([] : List String) → l ∈ segP ++ segN)
      ∧ (segP ++ segN).Nodup :=
  claim_C6_amended_priority_prefix_fifo [] [] ["https://s.example/course1", navA]

/-! ## Claim C8 — crawl budget and deduplication -/

/-- Invariant of the crawl loop: the visited list stays duplicate-free and
never exceeds the page budget. -/
theorem crawlLoop_visited_nodup_le
    (pageExtract : String → Except PyError (ExtractionResult × String))
    (findNav : String → String → List String) (max_pages : Nat) :
    ∀ (fuel : Nat) (s : CrawlState), s.visited.Nodup →
      s.visited.length ≤ max_pages →
      (crawlLoop pageExtract findNav max_pages fuel s).visited.Nodup
      ∧ (crawlLoop pageExtract findNav max_pages fuel s).visited.length
          ≤ max_pages := by
  intro fuel
  induction fuel with
  | zero => intro s h1 h2; exact ⟨h1, h2⟩
  | succ n ih =>
    intro s h1 h2
    by_cases hg : s.frontier = [] ∨ max_pages ≤ s.visited.length
    · simp only [crawlLoop, if_pos hg]
      exact ⟨h1, h2⟩
    · simp only [crawlLoop, if_neg hg]
      push_neg at hg
      have hstep : (crawlStep pageExtract findNav s).visited.Nodup
          ∧ (crawlStep pageExtract findNav s).visited.length ≤ max_pages := by
        obtain ⟨vis, fr, fin⟩ := s
        simp only [crawlStep]
        cases fr with
        | nil => exact ⟨h1, h2⟩
        | cons current rest =>
          by_cases hv : current ∈ vis
          · simpa [hv] using ⟨h1, h2⟩
          · have hnd : (vis ++ [current]).Nodup := by
              simp only [List.nodup_append, List.nodup_cons, List.nodup_nil,
                and_true, List.disjoint_singleton]
              exact ⟨h1, by simpa using hv⟩
            have hln : vis.length + 1 ≤ max_pages := by
              have := hg.2
              simp only [CrawlState.visited] at this
              omega
            simp only [if_neg hv]
            cases pageExtract current with
            | error e => simpa using ⟨hnd, hln⟩
            | ok pr =>
              obtain ⟨page_result, content⟩ := pr
              cases fin with
              | none => simpa using ⟨hnd, hln⟩
              | some f => simpa using ⟨hnd, hln⟩
      exact ih (crawlStep pageExtract findNav s) hstep.1 hstep.2

/-- C8: a crawl extracts at most `max_pages` distinct URLs (the visited
list is duplicate-free and bounded by the budget); the frontier-extension
loop never re-appends a URL that is already visited or already queued; and
popping an already-visited URL only consumes the frontier head, leaving the
visited set — hence the budget — untouched. -/
theorem claim_C8_crawl_budget
    (pageExtract : String → Except PyError (ExtractionResult × String))
    (findNav : String → String → List String)
    (max_pages fuel : Nat) (start : String) :
    ((crawlLoop pageExtract findNav max_pages fuel
        { visited := [], frontier := [start], final := none }).visited.Nodup
      ∧ (crawlLoop pageExtract findNav max_pages fuel
        { visited := [], frontier := [start], final := none }).visited.length
          ≤ max_pages)
    ∧ (∀ visited frontier links, ∃ seg,
        enqueueLinks visited frontier links = frontier ++ seg
        ∧ seg.Nodup
        ∧ ∀ l ∈ seg, l ∈ links ∧ l ∉ visited ∧ l ∉ frontier)
    ∧ (∀ (s : CrawlState) (current : String) (rest : List String),
        s.frontier = current :: rest → current ∈ s.visited →
        crawlStep pageExtract findNav s = { s with frontier := rest }) := by
  refine ⟨?_, ?_, ?_⟩
  · exact crawlLoop_visited_nodup_le pageExtract findNav max_pages fuel
      { visited := [], frontier := [start], final := none }
      List.nodup_nil (by simp)
  · intro visited frontier links
    obtain ⟨seg, h1, h2, h3, _⟩ := enqueueLinks_spec visited links frontier
    exact ⟨seg, h1, h2, h3⟩
  · intro s current rest hf hv
    obtain ⟨vis, fr, fin⟩ := s
    simp only [CrawlState.frontier] at hf
    subst hf
    simp only [CrawlState.visited] at hv
    simp [crawlStep, hv]

/-- Witness for C8: popping an already-visited URL just drops it from the
frontier. -/
theorem claim_C8_witness :
    crawlStep failPageExtract emptyFindNav
      { visited := ["https://u.example/"]
        frontier := ["https://u.example/", "https://v.example/"]
        final := none }
      = { visited := ["https://u.example/"]
          frontier := ["https://v.example/"]
          final := none } :=
  (claim_C8_crawl_budget failPageExtract emptyFindNav 0 0 "x").2.2
    { visited := ["https://u.example/"]
      frontier := ["https://u.example/", "https://v.example/"]
      final := none }
    "https://u.example/" ["https://v.example/"] rfl (by decide)

/-! ## Claim C9 — bucket disjointness and totals -/

/-- Bind on a successful `Except` step. -/
theorem except_bind_ok {α β : Type} (a : α) (f : α → Except PyError β) :
    (Except.ok a >>= f) = f a := rfl

/-- Bind on a failed `Except` step. -/
theorem except_bind_error {α β : Type} (e : PyError) (f : α → Except PyError β) :
    ((Except.error e : Except PyError α) >>= f) = .error e := rfl

/-- The orchestrator's re-wrap is transparent on success. -/
theorem wrapContextual_eq_ok {α : Type} (x : Except PyError α) (a : α) :
    wrapContextual x = .ok a ↔ x = .ok a := by
  cases x <;> simp [wrapContextual]

/-- The three category filters partition any classified list. -/
theorem length_filter_link_type_partition (cls : List ExtractedLink) :
    (cls.filter fun l => l.link_type = .pdf).length
    + (cls.filter fun l => l.link_type = .youtube).length
    + (cls.filter fun l => l.link_type = .other).length = cls.length := by
  induction cls with
  | nil => rfl
  | cons x xs ih =>
    cases hx : x.link_type <;> simp [List.filter_cons, hx] <;> omega

/-- C9: every result of `extract_and_classify` has buckets that are exactly
the category filters of the classified list — each classified link lands in
exactly one bucket, matching its `link_type` — and `total_links` equals the
sum of the bucket lengths and the classified count recorded in the
metadata. -/
theorem claim_C9_bucket_invariants
    (validUrl : String → Bool)
    (fetch : String → Except PyError String)
    (parse : String → String → Except PyError (List (String × String)))
    (classifyLinks : List (String × String) → Except PyError (List ExtractedLink))
    (elapsed : ℚ) (cid url : String) (r : ExtractionResult) (content : String)
    (h : extract_and_classify validUrl fetch parse classifyLinks elapsed cid url
        = .ok (r, content)) :
    (∀ l ∈ r.pdf_links, l.link_type = .pdf)
    ∧ (∀ l ∈ r.youtube_links, l.link_type = .youtube)
    ∧ (∀ l ∈ r.other_links, l.link_type = .other)
    ∧ r.total_links
        = r.pdf_links.length + r.youtube_links.length + r.other_links.length
    ∧ ∃ classified : List ExtractedLink,
        r.pdf_links = classified.filter (fun l => l.link_type = .pdf)
        ∧ r.youtube_links = classified.filter (fun l => l.link_type = .youtube)
        ∧ r.other_links = classified.filter (fun l => l.link_type = .other)
        ∧ r.total_links = classified.length
        ∧ r.metadata.map (fun m => m.total_links_found)
            = some classified.length := by
  rw [extract_and_classify, wrapContextual_eq_ok] at h
  cases hf : fetch url with
  | error e => rw [hf, except_bind_error] at h; cases h
  | ok content1 =>
    rw [hf, except_bind_ok] at h
    cases hp : parse content1 url with
    | error e => rw [hp, except_bind_error] at h; cases h
    | ok raw_links =>
      rw [hp, except_bind_ok] at h
      cases hc : classifyLinks raw_links with
      | error e => rw [hc, except_bind_error] at h; cases h
      | ok classified =>
        rw [hc, except_bind_ok] at h
        cases hpt : ProcessingTime.make elapsed with
        | error e => rw [hpt, except_bind_error] at h; cases h
        | ok pt =>
          rw [hpt, except_bind_ok] at h
          cases hsu : SourceUrl.from_string? validUrl url with
          | error e => simp only [hsu, except_bind_error] at h; cases h
          | ok su =>
            simp only [hsu, except_bind_ok] at h
            have hpair := Except.ok.inj h
            injection hpair with h1 h2
            subst h1
            subst h2
            refine ⟨?_, ?_, ?_, rfl, classified, rfl, rfl, rfl, ?_, rfl⟩
            · intro l hl
              exact of_decide_eq_true (List.mem_filter.mp hl).2
            · intro l hl
              exact of_decide_eq_true (List.mem_filter.mp hl).2
            · intro l hl
              exact of_decide_eq_true (List.mem_filter.mp hl).2
            · exact length_filter_link_type_partition classified

/-- Witness for C9 on the concrete page-one extraction. -/
theorem claim_C9_witness :
    ({ source_url := "https://s.example/"
       pdf_links := []
       youtube_links := []
       other_links := [{ url := "https://s.example/home"
                         link_text := "Home", link_type := .other }]
       metadata := some { total_links_found := 1, pdf_count := 0
                          youtube_count := 0
                          processing_time := ⟨1⟩
                          correlation_id := "cid00000" } }
        : ExtractionResult).total_links
      = ([] : List ExtractedLink).length + ([] : List ExtractedLink).length
        + [({ url := "https://s.example/home", link_text := "Home"
              link_type := .other } : ExtractedLink)].length :=
  (claim_C9_bucket_invariants startsHttpValidUrl twoPageFetch twoPageParse
    twoPageClassify 1 "cid00000" "https://s.example/" _ "c1" rfl).2.2.2.1

/-! ## Claim C4 — fetch retry bound and backoff -/

/-- One retryable attempt below the retry cap: the loop sleeps `2^attempt`
and continues with the next attempt. -/
theorem extract_content_go_retry_step (oracle : Nat → AttemptOutcome)
    (max_retries a fuel : Nat) (h : RetryableOutcome (oracle a))
    (ha : a < max_retries) :
    extract_content_go oracle max_retries a (fuel + 1)
      = ⟨(extract_content_go oracle max_retries (a + 1) fuel).attempts + 1,
         2 ^ a :: (extract_content_go oracle max_retries (a + 1) fuel).sleeps,
         (extract_content_go oracle max_retries (a + 1) fuel).result⟩ := by
  rcases h with ht | ⟨c, hc, h5a, h5b⟩
  · simp [extract_content_go, ht, ha]
  · simp [extract_content_go, hc, ha, h5a, h5b]

/-- Reindexing the backoff sleeps when the attempt counter shifts by one. -/
theorem backoff_map_shift (a m : Nat) :
    (2 : Nat) ^ a :: (List.range m).map (fun i => 2 ^ (a + 1 + i))
      = (List.range (m + 1)).map (fun i => 2 ^ (a + i)) := by
  rw [List.range_succ_eq_map, List.map_cons, List.map_map]
  refine congrArg₂ _ (by rw [Nat.add_zero]) ?_
  apply List.map_congr_left
  intro i _
  simp only [Function.comp_apply]
  congr 1
  omega

/-- If every attempt from `a` through `max_retries` is retryable, the loop
consumes all its fuel: one HTTP attempt per fuel unit, a backoff sleep
after each attempt but the last, and an error outcome. -/
theorem extract_content_go_all_retryable (oracle : Nat → AttemptOutcome)
    (max_retries : Nat) :
    ∀ (fuel a : Nat), a + fuel = max_retries + 1 →
      (∀ i, a ≤ i → i ≤ max_retries → RetryableOutcome (oracle i)) →
      (extract_content_go oracle max_retries a fuel).attempts = fuel
      ∧ (extract_content_go oracle max_retries a fuel).sleeps
          = (List.range (fuel - 1)).map (fun i => 2 ^ (a + i))
      ∧ ∃ e, (extract_content_go oracle max_retries a fuel).result = .error e := by
  intro fuel
  induction fuel with
  | zero =>
    intro a ha hr
    exact ⟨rfl, rfl, .noAttempts, rfl⟩
  | succ f ih =>
    intro a ha hr
    have hra : RetryableOutcome (oracle a) := hr a le_rfl (by omega)
    cases f with
    | zero =>
      have haN : ¬ a < max_retries := by omega
      rcases hra with ht | ⟨c, hc, h5a, h5b⟩
      · refine ⟨?_, ?_, .timeoutExhausted, ?_⟩ <;>
          simp [extract_content_go, ht, haN]
      · refine ⟨?_, ?_, .httpStatusFailed c, ?_⟩ <;>
          simp [extract_content_go, hc, haN]
    | succ f2 =>
      have haN : a < max_retries := by omega
      rw [extract_content_go_retry_step oracle max_retries a (f2 + 1) hra haN]
      obtain ⟨ih1, ih2, e, ih3⟩ := ih (a + 1) (by omega)
        (fun i hi1 hi2 => hr i (by omega) hi2)
      refine ⟨by rw [ih1], ?_, e, ih3⟩
      rw [ih2]
      simpa using backoff_map_shift a (f2 + 1 - 1)

/-- If the first `k` attempts from `a` are retryable and attempt `a + k`
succeeds, the loop makes exactly `k + 1` attempts, sleeps `2^attempt` after
each failed attempt, and returns the body. -/
theorem extract_content_go_prefix_success (oracle : Nat → AttemptOutcome)
    (max_retries : Nat) (body : String) :
    ∀ (k a fuel : Nat), a + fuel = max_retries + 1 → k < fuel →
      (∀ i, a ≤ i → i < a + k → RetryableOutcome (oracle i)) →
      oracle (a + k) = .success body →
      extract_content_go oracle max_retries a fuel
        = ⟨k + 1, (List.range k).map (fun i => 2 ^ (a + i)), .ok body⟩ := by
  intro k
  induction k with
  | zero =>
    intro a fuel ha hk hr hsucc
    obtain ⟨f, rfl⟩ : ∃ f, fuel = f + 1 := ⟨fuel - 1, by omega⟩
    rw [Nat.add_zero] at hsucc
    simp [extract_content_go, hsucc]
  | succ k ih =>
    intro a fuel ha hk hr hsucc
    obtain ⟨f, rfl⟩ : ∃ f, fuel = f + 1 := ⟨fuel - 1, by omega⟩
    have hra : RetryableOutcome (oracle a) := hr a le_rfl (by omega)
    have haN : a < max_retries := by omega
    rw [extract_content_go_retry_step oracle max_retries a f hra haN]
    rw [ih (a + 1) f (by omega) (by omega)
      (fun i hi1 hi2 => hr i (by omega) (by omega))
      (by rw [show a + 1 + k = a + (k + 1) by omega]; exact hsucc)]
    exact congrArg (fun l => FetchTrace.mk (k + 1 + 1) l (Except.ok body))
      (backoff_map_shift a k)

/-- If the first `j` attempts from `a` are retryable and attempt `a + j`
fails non-retryably (a non-5xx HTTP status or a transport error), the loop
stops there: `j + 1` attempts, no sleep after the failing attempt, and an
immediate error. -/
theorem extract_content_go_prefix_nonretry (oracle : Nat → AttemptOutcome)
    (max_retries : Nat) :
    ∀ (j a fuel : Nat), a + fuel = max_retries + 1 → j < fuel →
      (∀ i, a ≤ i → i < a + j → RetryableOutcome (oracle i)) →
      NonRetryFailure (oracle (a + j)) →
      ∃ e, extract_content_go oracle max_retries a fuel
        = ⟨j + 1, (List.range j).map (fun i => 2 ^ (a + i)), .error e⟩ := by
  intro j
  induction j with
  | zero =>
    intro a fuel ha hk hr hfail
    obtain ⟨f, rfl⟩ : ∃ f, fuel = f + 1 := ⟨fuel - 1, by omega⟩
    rw [Nat.add_zero] at hfail
    rcases hfail with ht | ⟨c, hc, hnot5⟩
    · exact ⟨.transport, by simp [extract_content_go, ht]⟩
    · refine ⟨.httpStatusFailed c, ?_⟩
      have hcond : ¬(500 ≤ c ∧ c < 600 ∧ a < max_retries) := by
        intro hco
        exact hnot5 ⟨hco.1, hco.2.1⟩
      simp [extract_content_go, hc, hcond]
  | succ j ih =>
    intro a fuel ha hk hr hfail
    obtain ⟨f, rfl⟩ : ∃ f, fuel = f + 1 := ⟨fuel - 1, by omega⟩
    have hra : RetryableOutcome (oracle a) := hr a le_rfl (by omega)
    have haN : a < max_retries := by omega
    rw [extract_content_go_retry_step oracle max_retries a f hra haN]
    obtain ⟨e, he⟩ := ih (a + 1) f (by omega) (by omega)
      (fun i hi1 hi2 => hr i (by omega) (by omega))
      (by rw [show a + 1 + j = a + (j + 1) by omega]; exact hfail)
    refine ⟨e, ?_⟩
    rw [he]
    exact congrArg (fun l => FetchTrace.mk (j + 1 + 1) l (Except.error e))
      (backoff_map_shift a j)

/-- C4: for `max_retries = N ≥ 1`, (i) if every attempt fails retryably
(timeout or 5xx) the client makes exactly `N` HTTP attempts, sleeping
`2^attempt` (1-based counter) before each retry, and then raises
`ContentExtractionError`; (ii) if the first `k < N` attempts fail retryably
and attempt `k+1` succeeds, exactly `k+1` attempts are made, with backoffs
`2^1 .. 2^k`, and the decoded body is returned; (iii) a non-5xx HTTP status
or transport error on an attempt stops the loop at that attempt with no
further retry and no backoff for it. -/
theorem claim_C4_retry_bound_and_backoff (oracle : Nat → AttemptOutcome)
    (N : Nat) (hN : 1 ≤ N) :
    ((∀ i, 1 ≤ i → i ≤ N → RetryableOutcome (oracle i)) →
      (extract_content oracle N).attempts = N
      ∧ (extract_content oracle N).sleeps
          = (List.range (N - 1)).map (fun i => 2 ^ (1 + i))
      ∧ ∃ e, (extract_content oracle N).result = .error e)
    ∧ (∀ k body, k + 1 ≤ N →
        (∀ i, 1 ≤ i → i ≤ k → RetryableOutcome (oracle i)) →
        oracle (k + 1) = .success body →
        extract_content oracle N
          = ⟨k + 1, (List.range k).map (fun i => 2 ^ (1 + i)), .ok body⟩)
    ∧ (∀ j, j + 1 ≤ N →
        (∀ i, 1 ≤ i → i ≤ j → RetryableOutcome (oracle i)) →
        NonRetryFailure (oracle (j + 1)) →
        ∃ e, extract_content oracle N
          = ⟨j + 1, (List.range j).map (fun i => 2 ^ (1 + i)), .error e⟩) := by
  refine ⟨?_, ?_, ?_⟩
  · intro hr
    exact extract_content_go_all_retryable oracle N N 1 (by omega) hr
  · intro k body hk hr hsucc
    exact extract_content_go_prefix_success oracle N body k 1 N (by omega)
      (by omega) (fun i hi1 hi2 => hr i hi1 (by omega))
      (by rw [show (1 : Nat) + k = k + 1 by omega]; exact hsucc)
  · intro j hj hr hfail
    exact extract_content_go_prefix_nonretry oracle N j 1 N (by omega)
      (by omega) (fun i hi1 hi2 => hr i hi1 (by omega))
      (by rw [show (1 : Nat) + j = j + 1 by omega]; exact hfail)

/-- Witness for C4: timeout, then 503, then success — three attempts,
backoffs 2 and 4, body returned. -/
theorem claim_C4_witness :
    extract_content retryOracle 3 = ⟨3, [2, 4], .ok "ok"⟩ := by
  have h := (claim_C4_retry_bound_and_backoff retryOracle 3 (by omega)).2.1
    2 "ok" (by omega)
    (by
      intro i h1 h2
      interval_cases i
      · exact Or.inl rfl
      · exact Or.inr ⟨503, rfl, by omega, by omega⟩)
    rfl
  rw [h]
  rfl
